import Mathlib

/-!
Shallow embedding of `src/server/scraper/http_scraper.py` (the Adaptive
Extraction & Escalation Engine) and proofs about its behaviour.

The HTML parser (BeautifulSoup) and the HTTP transport (requests) are
external collaborators; they are modelled at their boundary:
an `Elem` answers the accessor calls the extractor makes
(`get_text(strip=True)`, `.get(attr)`, `str(element)`, `select_one`),
and a `Soup` answers `select`.  The extraction, block-detection,
classification and protocol logic is translated line by line from the
Python source.
-/

namespace HttpScraper

/-- Substring test at the head of a list: `prefAt n h` is true when `n` is an
initial segment of `h` (models Python string prefix matching). -/
def prefAt : List Char → List Char → Bool
  | [], _ => true
  | _ :: _, [] => false
  | a :: n, b :: h => a = b && prefAt n h

/-- Containment of `n` in `h` as Python's `n in h` on strings. -/
def containsSub (n : List Char) : List Char → Bool
  | [] => prefAt n []
  | c :: t => prefAt n (c :: t) || containsSub n t

/-- String containment, Python's `needle in haystack`. -/
def strContains (haystack needle : String) : Bool :=
  containsSub needle.toList haystack.toList

/-- Python's `s.lower()`, character by character. -/
def strToLower (s : String) : String :=
  String.mk (s.toList.map Char.toLower)

/-- Python's `s.strip()`: drop whitespace from both ends. -/
def pyStrip (s : String) : String :=
  String.mk (((s.toList.dropWhile Char.isWhitespace).reverse.dropWhile
    Char.isWhitespace).reverse)

/-- Model of a parsed HTML element at the collaborator boundary
(BeautifulSoup `Tag`): its stripped text, its attribute map, its
serialization `str(element)`, and for every selector string the first
matching descendant, if any. -/
inductive Elem where
  | mk (textStripped : String) (attrs : List (String × String))
       (html : String) (sub : List (String × Elem))

/-- Stripped text content, `element.get_text(strip=True)`. -/
def Elem.textStripped : Elem → String
  | .mk t _ _ _ => t

/-- Attribute lookup, `element.get(name)` (None when absent). -/
def Elem.getAttr : Elem → String → Option String
  | .mk _ a _ _, k => (a.find? (fun kv => kv.1 = k)).map (fun kv => kv.2)

/-- Serialized element, `str(element)`. -/
def Elem.html : Elem → String
  | .mk _ _ h _ => h

/-- First descendant matching a selector, `container.select_one(sel)`. -/
def Elem.selectOne : Elem → String → Option Elem
  | .mk _ _ _ s, sel => (s.find? (fun kv => kv.1 = sel)).map (fun kv => kv.2)

/-- Model of a parsed document at the collaborator boundary: `soup.select`
returns the elements matching a selector, in document order. -/
abbrev Soup := String → List Elem

/-- Value stored under one key of the selectors dict: a bare string, a
nested dict (modelled with string values, covering `selector` and
`attribute` sub-keys), or any other JSON value, of which only the Python
truthiness is relevant. -/
inductive SelVal where
  | str (s : String)
  | dict (entries : List (String × String))
  | other (truthy : Bool)
deriving DecidableEq

/-- Python truthiness of a selector value: empty strings and empty dicts
are falsy. -/
def SelVal.isTruthy : SelVal → Bool
  | .str s => !(s = "")
  | .dict d => !d.isEmpty
  | .other b => b

/-- Selectors dict, field name to selector value, in insertion order. -/
abbrev Selectors := List (String × SelVal)

/-- Extracted item, field name to string value, in insertion order. -/
abbrev Item := List (String × String)

/-- Dict lookup `selectors.get(key)` (None when absent). -/
def lookupVal (cfg : Selectors) (k : String) : Option SelVal :=
  (cfg.find? (fun kv => kv.1 = k)).map (fun kv => kv.2)

/-- Nested dict lookup with default, `d.get(key, dflt)`. -/
def dictGet (d : List (String × String)) (k : String) (dflt : String) : String :=
  (((d.find? (fun kv => kv.1 = k)).map (fun kv => kv.2))).getD dflt

/-- Python `a or b` on optional selector values: the first operand when it
is present and truthy, otherwise the second. -/
def pyOr (a b : Option SelVal) : Option SelVal :=
  match a with
  | some v => if v.isTruthy then some v else b
  | none => b

/-- Outcome of container-selector resolution: no usable selector (extraction
returns no items), a selector string, or a truthy non-string non-dict value
(Python would raise a TypeError inside `soup.select`). -/
inductive ContainerRes where
  | unresolved
  | sel (s : String)
  | bad
deriving DecidableEq

/-- Container-selector resolution, lines 148-162 of the source: the
`or`-chain over the three aliases, the first falsiness check, the dict
unwrap to its `selector` sub-field, and the second falsiness check. -/
def resolveContainer (cfg : Selectors) : ContainerRes :=
  match pyOr (pyOr (lookupVal cfg "productContainer") (lookupVal cfg "container"))
      (lookupVal cfg "product_container") with
  | none => .unresolved
  | some v =>
    if v.isTruthy = false then .unresolved
    else
      match v with
      | .dict d =>
        let s := dictGet d "selector" ""
        if s = "" then .unresolved else .sel s
      | .str s => if s = "" then .unresolved else .sel s
      | .other _ => .bad

/-- Value extraction for one matched element, lines 192-201: dispatch on the
attribute name. -/
def extractValue (el : Elem) (attr : String) : String :=
  if attr = "text" || attr = "innerText" then el.textStripped
  else if attr = "href" then (el.getAttr "href").getD ""
  else if attr = "src" then (el.getAttr "src").getD ""
  else if attr = "innerHTML" then el.html
  else (el.getAttr attr).getD ""

/-- Processing of one config entry of the field loop, lines 170-201: skip
the three container aliases, normalize string and dict selector shapes (any
other shape is skipped), skip empty selectors, and record a value when the
field selector matches a descendant. -/
def buildStep (container : Elem) (item : Item) (kv : String × SelVal) : Item :=
  if kv.1 = "productContainer" || kv.1 = "container" || kv.1 = "product_container" then
    item
  else
    match kv.2 with
    | .other _ => item
    | .str s =>
      if s = "" then item
      else
        match container.selectOne s with
        | none => item
        | some el => item ++ [(kv.1, extractValue el "text")]
    | .dict d =>
      if dictGet d "selector" "" = "" then item
      else
        match container.selectOne (dictGet d "selector" "") with
        | none => item
        | some el => item ++ [(kv.1, extractValue el (dictGet d "attribute" "text"))]

/-- Candidate item built from one container element, lines 167-201: iterate
the config entries in insertion order. -/
def buildItem (container : Elem) (cfg : Selectors) : Item :=
  cfg.foldl (buildStep container) []

/-- Retention check for one candidate item, line 204:
`if item and any(v for v in item.values() if v)` -- the item is non-empty
and at least one value is a non-empty (truthy) string. -/
def itemKeep (item : Item) : Bool :=
  !item.isEmpty && item.any (fun kv => !(kv.2 = ""))

/-- Item extraction, `HttpScraper._extract_items`, lines 143-207.  The
`.error` case models the TypeError Python raises in `soup.select` when the
resolved container value is truthy but neither a string nor a dict
(CPython's exact message is abstracted). -/
def extractItems (soup : Soup) (cfg : Selectors) : Except String (List Item) :=
  match resolveContainer cfg with
  | .unresolved => .ok []
  | .bad => .error "selector must be str"
  | .sel s =>
    .ok ((soup s).foldl (fun items c =>
      let item := buildItem c cfg
      if itemKeep item then items ++ [item] else items) [])

/-- Fixed bot-detection indicator list, lines 122-131. -/
def bot_indicators : List String :=
  ["captcha", "cloudflare", "access denied", "robot check",
   "please verify you are human", "enable javascript", "browser check",
   "ddos protection"]

/-- Block detector, `HttpScraper._is_bot_blocked`, lines 117-141: any
indicator contained in the lower-cased body, or a body shorter than 500
characters, means blocked. -/
def isBotBlocked (text : String) : Bool :=
  let text_lower := strToLower text
  if bot_indicators.any (fun i => strContains text_lower i) then true
  else if text.length < 500 then true
  else false

/-- Outcome of the HTTP fetch (`self.session.get` + `raise_for_status`), at
the collaborator boundary: the body on success, or one of the exception
kinds the `try` block of `scrape` catches. `otherError` stands for an
unexpected exception caught by the final `except Exception`. -/
inductive FetchOut where
  | ok (text : String)
  | timeout
  | requestError (detail : String)
  | otherError (detail : String)
deriving DecidableEq

/-- Result dict of one scrape, the sole externally visible output; its five
fields are exactly the five keys `success`, `items`, `count`,
`needs_browser`, `reason` of every result dict the source constructs. -/
structure ScrapeResult where
  success : Bool
  items : List Item
  count : Int
  needs_browser : Bool
  reason : Option String
deriving DecidableEq

/-- Classification, `HttpScraper.scrape`, lines 34-115: fetch outcome, block
detection, extraction, then the count-versus-target decision; every
exception kind is converted to a failure result.  `parse` is the external
HTML parser (`BeautifulSoup(response.text, ...)`). -/
def scrape (parse : String → Soup) (fetched : FetchOut) (selectors : Selectors)
    (target_count : Int) : ScrapeResult :=
  match fetched with
  | .ok text =>
    if isBotBlocked text then
      { success := false, items := [], count := 0, needs_browser := true,
        reason := some "bot_detection" }
    else
      match extractItems (parse text) selectors with
      | .error e =>
        { success := false, items := [], count := 0, needs_browser := true,
          reason := some ("parse_error: " ++ e) }
      | .ok items =>
        let count : Int := items.length
        if count = 0 then
          { success := false, items := [], count := 0, needs_browser := true,
            reason := some "no_items_found" }
        else if count < target_count then
          { success := true, items := items, count := count, needs_browser := true,
            reason := some ("below_target_" ++ toString count ++ "/" ++ toString target_count) }
        else
          { success := true, items := items, count := count, needs_browser := false,
            reason := none }
  | .timeout =>
    { success := false, items := [], count := 0, needs_browser := true,
      reason := some "timeout" }
  | .requestError d =>
    { success := false, items := [], count := 0, needs_browser := true,
      reason := some ("request_error: " ++ d) }
  | .otherError d =>
    { success := false, items := [], count := 0, needs_browser := true,
      reason := some ("parse_error: " ++ d) }

/-- Failure result emitted by `serve` when the request has no usable url,
lines 236-242. -/
def missingUrlResult : ScrapeResult :=
  { success := false, items := [], count := 0, needs_browser := true,
    reason := some "missing_url" }

/-- Failure result emitted when a request line is not valid JSON,
lines 250-256 (and 290-296 in `main`). -/
def jsonDecodeErrorResult (detail : String) : ScrapeResult :=
  { success := false, items := [], count := 0, needs_browser := true,
    reason := some ("json_decode_error: " ++ detail) }

/-- Failure result of the catch-all branch of the serve loop, lines
258-264. -/
def workerErrorResult (detail : String) : ScrapeResult :=
  { success := false, items := [], count := 0, needs_browser := true,
    reason := some ("worker_error: " ++ detail) }

/-- Failure result of the `KeyError` branch of `main`, lines 298-305;
Python's `str(KeyError(k))` renders the key in single quotes. -/
def missingKeyResult (key : String) : ScrapeResult :=
  { success := false, items := [], count := 0, needs_browser := true,
    reason := some ("missing_key: \x27" ++ key ++ "\x27") }

/-- Decoded request object: the four keys the source reads, each possibly
absent. -/
structure Request where
  command : Option String := none
  url : Option String := none
  selectors : Option Selectors := none
  targetCount : Option Int := none

/-- Input line of the persistent loop after stripping: blank (skipped), not
decodable as JSON, or a decoded request object. -/
inductive ServeLine where
  | blank
  | badJson (detail : String)
  | req (r : Request)

/-- Effect of one iteration of the serve loop on its stream. -/
inductive ServeAction where
  | skip
  | emit (r : ScrapeResult)
  | stop
deriving DecidableEq

/-- One iteration of the persistent loop body, `serve`, lines 219-264:
shutdown sentinel, defaulted field reads (`url` default `""`, `selectors`
default empty, `targetCount` default 10), the missing-url check, dispatch
to `scrape`, and the JSON-decode-error branch.  `fetchFor` is the external
transport: the fetch outcome for each url. -/
def handleLine (parse : String → Soup) (fetchFor : String → FetchOut) :
    ServeLine → ServeAction
  | .blank => .skip
  | .badJson d => .emit (jsonDecodeErrorResult d)
  | .req r =>
    if r.command = some "shutdown" then .stop
    else
      let url := r.url.getD ""
      if url = "" then .emit missingUrlResult
      else .emit (scrape parse (fetchFor url) (r.selectors.getD []) (r.targetCount.getD 10))

/-- The persistent loop over a stream of input lines: responses emitted
until the stream ends or a shutdown sentinel stops it. -/
def serveLoop (parse : String → Soup) (fetchFor : String → FetchOut) :
    List ServeLine → List ScrapeResult
  | [] => []
  | l :: rest =>
    match handleLine parse fetchFor l with
    | .skip => serveLoop parse fetchFor rest
    | .stop => []
    | .emit r => r :: serveLoop parse fetchFor rest

/-- Single-shot CLI argument after `sys.argv[1]`: not decodable as JSON, or
a decoded request object. -/
inductive CliInput where
  | badJson (detail : String)
  | parsed (r : Request)

/-- Single-shot mode, `main`, lines 278-315: mandatory `url` and
`selectors` reads (a missing key raises `KeyError`, caught and converted),
defaulted `targetCount`, one scrape.  Returns the printed result together
with the process exit status. -/
def runMain (parse : String → Soup) (fetchFor : String → FetchOut) :
    CliInput → ScrapeResult × Nat
  | .badJson d => (jsonDecodeErrorResult d, 1)
  | .parsed r =>
    match r.url with
    | none => (missingKeyResult "url", 1)
    | some u =>
      match r.selectors with
      | none => (missingKeyResult "selectors", 1)
      | some sel => (scrape parse (fetchFor u) sel (r.targetCount.getD 10), 0)

end HttpScraper

namespace HttpScraper

/-- Auxiliary: the accumulate-if loop of `_extract_items` builds exactly the
filtered map of the container list. -/
theorem foldl_keep_eq_filter_map (f : Elem → Item) (p : Item → Bool)
    (l : List Elem) (acc : List Item) :
    l.foldl (fun items c => if p (f c) then items ++ [f c] else items) acc
      = acc ++ (l.map f).filter p := by
  induction l generalizing acc with
  | nil => simp
  | cons c t ih =>
    simp only [List.foldl_cons, List.map_cons, List.filter_cons]
    by_cases hp : p (f c) = true
    · simp [hp, ih]
    · simp [hp, ih]

/-- Concrete body of 500 characters with no bot indicator: long enough to
pass the block detector. -/
def plainBody : String := String.mk (List.replicate 500 'a')

/-- Concrete leaf element with stripped text "x". -/
def elemT : Elem := .mk "x" [] "x" []

/-- Concrete container element whose descendant under selector ".t" is
`elemT`. -/
def elemCard : Elem := .mk "" [] "" [(".t", elemT)]

/-- Concrete document: selector ".c" matches `elemCard`. -/
def soupW : Soup := fun s => if s = ".c" then [elemCard] else []

/-- Concrete parser returning `soupW` for every body. -/
def parseW : String → Soup := fun _ => soupW

/-- Concrete selector config: container alias `container`, one text field. -/
def cfgW : Selectors := [("container", SelVal.str ".c"), ("name", SelVal.str ".t")]

end HttpScraper

namespace HttpScraper

/-- C5: `_is_bot_blocked` returns true if and only if the lower-cased body
contains at least one of the eight fixed indicator substrings or the body
is strictly shorter than 500 characters; in particular every body shorter
than 500 characters is classified blocked regardless of content. -/
theorem C5_block_detector_characterization (text : String) :
    isBotBlocked text = true ↔
      ((∃ i ∈ bot_indicators, strContains (strToLower text) i = true) ∨
        text.length < 500) := by
  simp only [isBotBlocked]
  split_ifs with h1 h2
  · exact iff_of_true rfl (Or.inl (List.any_eq_true.mp h1))
  · exact iff_of_true rfl (Or.inr h2)
  · refine iff_of_false (by simp) ?_
    rintro (hex | hlt)
    · exact h1 (List.any_eq_true.mpr hex)
    · exact h2 hlt

/-- C6: when the fetched body is classified blocked, scrape returns exactly
the bot_detection failure result (success false, empty items, count 0,
needs_browser true), independent of the HTML parser, the selector
configuration and the target count -- so neither parsing nor extraction
affects the outcome. -/
theorem C6_bot_block_short_circuit (body : String) (hb : isBotBlocked body = true) :
    ∀ (parse parse2 : String → Soup) (cfg cfg2 : Selectors) (t t2 : Int),
      scrape parse (FetchOut.ok body) cfg t =
        { success := false, items := [], count := 0, needs_browser := true,
          reason := some "bot_detection" } ∧
      scrape parse (FetchOut.ok body) cfg t = scrape parse2 (FetchOut.ok body) cfg2 t2 := by
  intro parse parse2 cfg cfg2 t t2
  have h : ∀ (p : String → Soup) (c : Selectors) (tt : Int),
      scrape p (FetchOut.ok body) c tt =
        { success := false, items := [], count := 0, needs_browser := true,
          reason := some "bot_detection" } := by
    intro p c tt
    simp [scrape, hb]
  exact ⟨h parse cfg t, by rw [h parse cfg t, h parse2 cfg2 t2]⟩

/-- Witness for C6 at the body of the spec's Scenario C. -/
theorem C6_bot_block_short_circuit_witness :
    scrape parseW (FetchOut.ok "Please complete the CAPTCHA") cfgW 10 =
      { success := false, items := [], count := 0, needs_browser := true,
        reason := some "bot_detection" } :=
  (C6_bot_block_short_circuit "Please complete the CAPTCHA" (by decide)
    parseW parseW cfgW cfgW 10 10).1

/-- C7: scrape converts every exception kind at its boundary -- timeout to
reason "timeout", any other transport error to "request_error: " plus the
detail, any other unexpected exception to "parse_error: " plus the detail,
each with success false, needs_browser true and empty items -- and the only
results carrying a non-empty item list together with needs_browser true are
the below_target results. -/
theorem C7_error_propagation (parse : String → Soup) (cfg : Selectors)
    (t : Int) (d : String) :
    scrape parse FetchOut.timeout cfg t =
      { success := false, items := [], count := 0, needs_browser := true,
        reason := some "timeout" } ∧
    scrape parse (FetchOut.requestError d) cfg t =
      { success := false, items := [], count := 0, needs_browser := true,
        reason := some ("request_error: " ++ d) } ∧
    scrape parse (FetchOut.otherError d) cfg t =
      { success := false, items := [], count := 0, needs_browser := true,
        reason := some ("parse_error: " ++ d) } ∧
    ∀ fetched : FetchOut,
      (scrape parse fetched cfg t).items ≠ [] →
      (scrape parse fetched cfg t).needs_browser = true →
      ∃ n : Int, (scrape parse fetched cfg t).reason =
        some ("below_target_" ++ toString n ++ "/" ++ toString t) := by
  refine ⟨rfl, rfl, rfl, ?_⟩
  intro fetched h1 h2
  cases fetched with
  | timeout => simp [scrape] at h1
  | requestError e => simp [scrape] at h1
  | otherError e => simp [scrape] at h1
  | ok text =>
    by_cases hb : isBotBlocked text = true
    · simp [scrape, hb] at h1
    · cases hx : extractItems (parse text) cfg with
      | error e => simp [scrape, hb, hx] at h1
      | ok its =>
        by_cases h0 : (its.length : Int) = 0
        · simp [scrape, hb, hx, h0] at h1
        · by_cases hlt : (its.length : Int) < t
          · refine ⟨its.length, ?_⟩
            simp [scrape, hb, hx, h0, hlt]
          · simp [scrape, hb, hx, h0, hlt] at h2

/-- C9: every result object the engine produces is a ScrapeResult -- a
record with exactly the five fields success, items, count, needs_browser,
reason -- and satisfies count = length of items, on every branch of scrape
and on every error branch of the protocol loop and the CLI. -/
theorem C9_count_invariant (parse : String → Soup) (fetched : FetchOut)
    (cfg : Selectors) (t : Int) (d e k : String) :
    (scrape parse fetched cfg t).count
        = ((scrape parse fetched cfg t).items.length : Int) ∧
    missingUrlResult.count = (missingUrlResult.items.length : Int) ∧
    (jsonDecodeErrorResult d).count = ((jsonDecodeErrorResult d).items.length : Int) ∧
    (workerErrorResult e).count = ((workerErrorResult e).items.length : Int) ∧
    (missingKeyResult k).count = ((missingKeyResult k).items.length : Int) := by
  refine ⟨?_, rfl, rfl, rfl, rfl⟩
  cases fetched with
  | timeout => rfl
  | requestError e2 => rfl
  | otherError e2 => rfl
  | ok text =>
    by_cases hb : isBotBlocked text = true
    · simp [scrape, hb]
    · cases hx : extractItems (parse text) cfg with
      | error e2 => simp [scrape, hb, hx]
      | ok its =>
        by_cases h0 : (its.length : Int) = 0
        · simp [scrape, hb, hx, h0]
        · by_cases hlt : (its.length : Int) < t
          · simp [scrape, hb, hx, h0, hlt]
          · simp [scrape, hb, hx, h0, hlt]

end HttpScraper

namespace HttpScraper

/-- C4: when the container selector does not resolve (no alias present, or
the resolved value falsy, or a dict whose selector sub-field is empty),
extraction returns the empty sequence without an error, and the classified
result for a fetch that passed block detection is the no_items_found
failure. -/
theorem C4_unresolved_container (parse : String → Soup) (soup : Soup)
    (cfg : Selectors) (body : String) (t : Int)
    (hres : resolveContainer cfg = ContainerRes.unresolved)
    (hb : isBotBlocked body = false) :
    extractItems soup cfg = Except.ok [] ∧
    scrape parse (FetchOut.ok body) cfg t =
      { success := false, items := [], count := 0, needs_browser := true,
        reason := some "no_items_found" } := by
  have hx : ∀ s : Soup, extractItems s cfg = Except.ok [] := by
    intro s
    unfold extractItems
    rw [hres]
  refine ⟨hx soup, ?_⟩
  simp [scrape, hb, hx (parse body)]

/-- Witness for C4: the empty selector configuration has no container
alias. -/
theorem C4_unresolved_container_witness :
    extractItems soupW [] = Except.ok [] ∧
    scrape parseW (FetchOut.ok plainBody) [] 0 =
      { success := false, items := [], count := 0, needs_browser := true,
        reason := some "no_items_found" } :=
  C4_unresolved_container parseW soupW [] plainBody 0 rfl
    (by set_option maxRecDepth 8000 in decide)

/-- C8: the single-shot CLI exits with status 0 exactly when it produced a
scrape result (all classified outcomes, including failures), and nonzero
exactly when the argument is not decodable JSON or the mandatory url or
selectors key is missing. -/
theorem C8_exit_status (parse : String → Soup) (fetchFor : String → FetchOut) :
    (∀ (r : Request) (u : String) (sel : Selectors),
      r.url = some u → r.selectors = some sel →
      runMain parse fetchFor (CliInput.parsed r)
        = (scrape parse (fetchFor u) sel (r.targetCount.getD 10), 0)) ∧
    (∀ inp : CliInput, (runMain parse fetchFor inp).2 ≠ 0 ↔
      ((∃ d, inp = CliInput.badJson d) ∨
       (∃ r, inp = CliInput.parsed r ∧ (r.url = none ∨ r.selectors = none)))) := by
  constructor
  · intro r u sel hu hs
    simp [runMain, hu, hs]
  · intro inp
    cases inp with
    | badJson d => simp [runMain]
    | parsed r =>
      cases hru : r.url with
      | none => simp [runMain, hru]
      | some u =>
        cases hrs : r.selectors with
        | none => simp [runMain, hru, hrs]
        | some sel => simp [runMain, hru, hrs]

/-- C10: in persistent mode a request whose url field is the empty string is
treated exactly like a request with the url field missing: the missing_url
failure result is emitted with no dependence on the transport, and the loop
continues with the remaining lines. -/
theorem C10_empty_url_like_missing (parse : String → Soup)
    (fetchFor fetchFor2 : String → FetchOut) (r : Request) (rest : List ServeLine)
    (hc : r.command ≠ some "shutdown") (hu : r.url = some "") :
    handleLine parse fetchFor (ServeLine.req r) = ServeAction.emit missingUrlResult ∧
    handleLine parse fetchFor (ServeLine.req r)
      = handleLine parse fetchFor2 (ServeLine.req { r with url := none }) ∧
    serveLoop parse fetchFor (ServeLine.req r :: rest)
      = missingUrlResult :: serveLoop parse fetchFor rest := by
  have h1 : handleLine parse fetchFor (ServeLine.req r) = ServeAction.emit missingUrlResult := by
    simp [handleLine, hc, hu]
  have h2 : handleLine parse fetchFor2 (ServeLine.req { r with url := none })
      = ServeAction.emit missingUrlResult := by
    simp [handleLine, hc]
  refine ⟨h1, by rw [h1, h2], ?_⟩
  simp [serveLoop, h1]

/-- Witness for C10 at a concrete request carrying an empty url. -/
theorem C10_empty_url_like_missing_witness :
    handleLine parseW (fun _ => FetchOut.timeout) (ServeLine.req { url := some "" })
      = ServeAction.emit missingUrlResult :=
  (C10_empty_url_like_missing parseW (fun _ => FetchOut.timeout)
    (fun _ => FetchOut.timeout) { url := some "" } [] (by decide) rfl).1

end HttpScraper

namespace HttpScraper

/-- C1 counterexample: with targetCount = 0 and an extraction yielding zero
items, count = 0 satisfies count >= targetCount, yet the code takes the
no_items_found branch first and sets needs_browser to true -- refuting the
claim at the explicit input parseW, plainBody, empty selectors, target 0. -/
theorem C1_counterexample :
    ¬ (∀ (parse : String → Soup) (body : String) (cfg : Selectors) (t : Int),
        isBotBlocked body = false →
        t ≤ (scrape parse (FetchOut.ok body) cfg t).count →
        (scrape parse (FetchOut.ok body) cfg t).needs_browser = false) := by
  intro h
  have hb : isBotBlocked plainBody = false := by
    set_option maxRecDepth 8000 in decide
  have hx : extractItems (parseW plainBody) [] = Except.ok [] := rfl
  have hres : scrape parseW (FetchOut.ok plainBody) [] 0 =
      { success := false, items := [], count := 0, needs_browser := true,
        reason := some "no_items_found" } := by
    simp [scrape, hb, hx]
  have h2 := h parseW plainBody [] 0 hb (by rw [hres])
  rw [hres] at h2
  exact absurd h2 (by decide)

/-- C1 amended: for results after a passed fetch and block check, a count
that is positive and at least targetCount gives needs_browser = false; a
count strictly between 0 and targetCount gives success = true and
needs_browser = true; and a count of 0 gives needs_browser = true even when
targetCount <= 0 (the no_items_found branch is checked first). -/
theorem C1_amended_monotonicity (parse : String → Soup) (body : String)
    (cfg : Selectors) (t : Int) (hb : isBotBlocked body = false) :
    (0 < (scrape parse (FetchOut.ok body) cfg t).count →
      t ≤ (scrape parse (FetchOut.ok body) cfg t).count →
      (scrape parse (FetchOut.ok body) cfg t).needs_browser = false) ∧
    (0 < (scrape parse (FetchOut.ok body) cfg t).count →
      (scrape parse (FetchOut.ok body) cfg t).count < t →
      (scrape parse (FetchOut.ok body) cfg t).success = true ∧
      (scrape parse (FetchOut.ok body) cfg t).needs_browser = true) ∧
    ((scrape parse (FetchOut.ok body) cfg t).count = 0 →
      (scrape parse (FetchOut.ok body) cfg t).needs_browser = true) := by
  cases hx : extractItems (parse body) cfg with
  | error e =>
    refine ⟨fun h1 _ => ?_, fun h1 _ => ?_, fun _ => ?_⟩
    · simp [scrape, hb, hx] at h1
    · simp [scrape, hb, hx] at h1
    · simp [scrape, hb, hx]
  | ok its =>
    by_cases h0 : (its.length : Int) = 0
    · refine ⟨fun h1 _ => ?_, fun h1 _ => ?_, fun _ => ?_⟩
      · simp [scrape, hb, hx, h0] at h1
      · simp [scrape, hb, hx, h0] at h1
      · simp [scrape, hb, hx, h0]
    · by_cases hlt : (its.length : Int) < t
      · refine ⟨fun _ h2 => ?_, fun _ _ => ?_, fun hc => ?_⟩
        · simp [scrape, hb, hx, h0, hlt] at h2
          omega
        · constructor <;> simp [scrape, hb, hx, h0, hlt]
        · simp [scrape, hb, hx, h0, hlt] at hc
      · refine ⟨fun _ _ => ?_, fun _ h2 => ?_, fun hc => ?_⟩
        · simp [scrape, hb, hx, h0, hlt]
        · simp [scrape, hb, hx, h0, hlt] at h2
        · simp [scrape, hb, hx, h0, hlt] at hc

/-- Witness for C1 amended: one extracted item against targetCount 1 gives
needs_browser = false. -/
theorem C1_amended_monotonicity_witness :
    (scrape parseW (FetchOut.ok plainBody) cfgW 1).needs_browser = false :=
  (C1_amended_monotonicity parseW plainBody cfgW 1
      (by set_option maxRecDepth 8000 in decide)).1
    (by set_option maxRecDepth 8000 in decide)
    (by set_option maxRecDepth 8000 in decide)

end HttpScraper

namespace HttpScraper

/-- Concrete anchor element whose href attribute holds the whitespace-only
string " ". -/
def elemA : Elem := .mk "" [("href", " ")] "" []

/-- Concrete container for the C2 counter-example: selector "a" finds
`elemA`. -/
def elemCard2 : Elem := .mk "" [] "" [("a", elemA)]

/-- Concrete document for the C2 counter-example. -/
def soup2 : Soup := fun s => if s = ".c" then [elemCard2] else []

/-- Concrete selector config extracting the href attribute. -/
def cfg2 : Selectors :=
  [("container", SelVal.str ".c"),
   ("link", SelVal.dict [("selector", "a"), ("attribute", "href")])]

/-- C2 counterexample: the retention check tests Python truthiness of the
raw values, not emptiness after trimming; the item whose only value is the
whitespace-only href string " " is retained in the output although every
one of its values trims to the empty string. -/
theorem C2_counterexample :
    extractItems soup2 cfg2 = Except.ok [[("link", " ")]] ∧
    pyStrip " " = "" :=
  ⟨rfl, rfl⟩

/-- C2 amended: a candidate item is retained if and only if it is non-empty
and at least one of its field values is a non-empty string (Python
truthiness).  Text-mode values are trimmed at extraction time, so a
whitespace-only text value counts as empty, but attribute values are not
trimmed before the check, so a whitespace-only attribute value retains the
item. -/
theorem C2_amended_retention (soup : Soup) (cfg : Selectors) (s : String)
    (hres : resolveContainer cfg = ContainerRes.sel s) :
    extractItems soup cfg =
      Except.ok (((soup s).map (fun c => buildItem c cfg)).filter
        (fun item => !item.isEmpty && item.any (fun kv => !(kv.2 = "")))) ∧
    (∀ items, extractItems soup cfg = Except.ok items →
      ∀ item ∈ items, ∃ kv ∈ item, kv.2 ≠ "") := by
  have h1 : extractItems soup cfg
      = Except.ok (((soup s).map (fun c => buildItem c cfg)).filter itemKeep) := by
    unfold extractItems
    rw [hres]
    exact congrArg Except.ok
      ((foldl_keep_eq_filter_map (fun c => buildItem c cfg) itemKeep (soup s) []).trans
        (by simp))
  refine ⟨h1, ?_⟩
  intro items hitems item hmem
  have heq : ((soup s).map (fun c => buildItem c cfg)).filter itemKeep = items :=
    Except.ok.inj (h1.symm.trans hitems)
  rw [← heq] at hmem
  have hp := (List.mem_filter.mp hmem).2
  simp only [itemKeep, Bool.and_eq_true, List.any_eq_true] at hp
  obtain ⟨-, kv, hkv, hne⟩ := hp
  exact ⟨kv, hkv, by simpa using hne⟩

/-- Witness for C2 amended at the concrete single-item document. -/
theorem C2_amended_retention_witness :
    extractItems soupW cfgW =
      Except.ok (((soupW ".c").map (fun c => buildItem c cfgW)).filter
        (fun item => !item.isEmpty && item.any (fun kv => !(kv.2 = "")))) :=
  (C2_amended_retention soupW cfgW ".c" rfl).1

end HttpScraper

namespace HttpScraper

/-- Unwrapping of one container alias value, as the code performs it after
the alias scan (lines 154-162): a falsy value resolves to nothing, a string
is used directly, a dict is unwrapped to its selector sub-field, and any
other truthy value would raise inside `soup.select`. -/
def unwrapContainer : SelVal → ContainerRes
  | .str s => if s = "" then .unresolved else .sel s
  | .dict d =>
    if dictGet d "selector" "" = "" then .unresolved
    else .sel (dictGet d "selector" "")
  | .other b => if b then .bad else .unresolved

/-- Falsiness of one optional alias value: absent, or present with a falsy
value (skipped by the Python `or`-chain). -/
def aliasFalsy (o : Option SelVal) : Prop :=
  ∀ v, o = some v → v.isTruthy = false

/-- Auxiliary: when the alias `or`-chain of lines 148-152 produces a truthy
value, the resolution is that value unwrapped. -/
theorem resolveContainer_of_chain (cfg : Selectors) (v : SelVal)
    (h : pyOr (pyOr (lookupVal cfg "productContainer") (lookupVal cfg "container"))
        (lookupVal cfg "product_container") = some v)
    (ht : v.isTruthy = true) :
    resolveContainer cfg = unwrapContainer v := by
  unfold resolveContainer
  rw [h]
  cases v with
  | str s =>
    show (if (SelVal.str s).isTruthy = false then ContainerRes.unresolved
      else if s = "" then ContainerRes.unresolved else ContainerRes.sel s)
      = unwrapContainer (SelVal.str s)
    rw [ht, if_neg (by simp)]
    rfl
  | dict d =>
    show (if (SelVal.dict d).isTruthy = false then ContainerRes.unresolved
      else if dictGet d "selector" "" = "" then ContainerRes.unresolved
      else ContainerRes.sel (dictGet d "selector" ""))
      = unwrapContainer (SelVal.dict d)
    rw [ht, if_neg (by simp)]
    rfl
  | other b =>
    have hb : b = true := ht
    subst hb
    rfl

/-- Auxiliary: one step of the field loop never records a pair under one of
the three container alias names. -/
theorem buildStep_keys (c : Elem) (item : Item) (p : String × SelVal)
    (h : ∀ kv ∈ item,
      kv.1 ≠ "productContainer" ∧ kv.1 ≠ "container" ∧ kv.1 ≠ "product_container") :
    ∀ kv ∈ buildStep c item p,
      kv.1 ≠ "productContainer" ∧ kv.1 ≠ "container" ∧ kv.1 ≠ "product_container" := by
  intro kv hkv
  unfold buildStep at hkv
  by_cases ha : (p.1 = "productContainer" || p.1 = "container" || p.1 = "product_container") = true
  · rw [if_pos ha] at hkv
    exact h kv hkv
  · rw [if_neg ha] at hkv
    simp only [Bool.or_eq_true, decide_eq_true_eq, not_or] at ha
    obtain ⟨⟨ha1, ha2⟩, ha3⟩ := ha
    have hnew : ∀ w : String, kv ∈ item ++ [(p.1, w)] →
        kv.1 ≠ "productContainer" ∧ kv.1 ≠ "container" ∧ kv.1 ≠ "product_container" := by
      intro w hw
      rcases List.mem_append.mp hw with hw | hw
      · exact h kv hw
      · simp only [List.mem_singleton] at hw
        subst hw
        exact ⟨ha1, ha2, ha3⟩
    split at hkv
    · exact h kv hkv
    · split at hkv
      · exact h kv hkv
      · split at hkv
        · exact h kv hkv
        · exact hnew _ hkv
    · split at hkv
      · exact h kv hkv
      · split at hkv
        · exact h kv hkv
        · exact hnew _ hkv

/-- Auxiliary: no extracted item holds a field under one of the three
container alias names. -/
theorem buildItem_keys (c : Elem) (cfg : Selectors) :
    ∀ kv ∈ buildItem c cfg,
      kv.1 ≠ "productContainer" ∧ kv.1 ≠ "container" ∧ kv.1 ≠ "product_container" := by
  suffices hgen : ∀ (l : Selectors) (acc : Item),
      (∀ kv ∈ acc,
        kv.1 ≠ "productContainer" ∧ kv.1 ≠ "container" ∧ kv.1 ≠ "product_container") →
      ∀ kv ∈ l.foldl (buildStep c) acc,
        kv.1 ≠ "productContainer" ∧ kv.1 ≠ "container" ∧ kv.1 ≠ "product_container" by
    exact hgen cfg [] (by simp)
  intro l
  induction l with
  | nil =>
    intro acc hacc
    simpa using hacc
  | cons p t ih =>
    intro acc hacc
    simp only [List.foldl_cons]
    exact ih (buildStep c acc p) (buildStep_keys c acc p hacc)

end HttpScraper

namespace HttpScraper

/-- Concrete config for the C3 counter-example: productContainer present but
holding the falsy value "", container usable, one text field. -/
def cfg3 : Selectors :=
  [("productContainer", SelVal.str ""), ("container", SelVal.str ".c"),
   ("name", SelVal.str ".t")]

/-- C3 counterexample: with the first-present alias productContainer holding
the falsy value "", the code skips it and resolves the container from the
later `container` alias, extracting items -- while resolution from the
first present alias would leave the container unresolvable and produce no
items. -/
theorem C3_counterexample :
    lookupVal cfg3 "productContainer" = some (SelVal.str "") ∧
    SelVal.isTruthy (SelVal.str "") = false ∧
    unwrapContainer (SelVal.str "") = ContainerRes.unresolved ∧
    resolveContainer cfg3 = ContainerRes.sel ".c" ∧
    extractItems soupW cfg3 = Except.ok [[("name", "x")]] :=
  ⟨rfl, rfl, rfl, rfl, rfl⟩

/-- C3 amended: the container selector is resolved from the first alias in
the fixed order productContainer, container, product_container whose value
is truthy -- aliases holding falsy values (empty string, empty dict) are
skipped, not chosen -- and all three alias names are excluded from the
extracted field set regardless of which alias resolved. -/
theorem C3_amended_first_truthy_alias (cfg : Selectors) :
    (∀ v, lookupVal cfg "productContainer" = some v → v.isTruthy = true →
      resolveContainer cfg = unwrapContainer v) ∧
    (∀ v, aliasFalsy (lookupVal cfg "productContainer") →
      lookupVal cfg "container" = some v → v.isTruthy = true →
      resolveContainer cfg = unwrapContainer v) ∧
    (∀ v, aliasFalsy (lookupVal cfg "productContainer") →
      aliasFalsy (lookupVal cfg "container") →
      lookupVal cfg "product_container" = some v → v.isTruthy = true →
      resolveContainer cfg = unwrapContainer v) ∧
    (∀ (c : Elem), ∀ kv ∈ buildItem c cfg,
      kv.1 ≠ "productContainer" ∧ kv.1 ≠ "container" ∧ kv.1 ≠ "product_container") := by
  refine ⟨?_, ?_, ?_, fun c => buildItem_keys c cfg⟩
  · intro v hv ht
    refine resolveContainer_of_chain cfg v ?_ ht
    rw [hv]
    simp [pyOr, ht]
  · intro v hf hv ht
    refine resolveContainer_of_chain cfg v ?_ ht
    have hchain : pyOr (lookupVal cfg "productContainer") (lookupVal cfg "container")
        = some v := by
      cases hpc : lookupVal cfg "productContainer" with
      | none => simp [pyOr, hv]
      | some w =>
        have hw := hf w hpc
        simp [pyOr, hw, hv]
    rw [hchain]
    simp [pyOr, ht]
  · intro v hf1 hf2 hv ht
    have hchain : pyOr (pyOr (lookupVal cfg "productContainer") (lookupVal cfg "container"))
        (lookupVal cfg "product_container") = some v := by
      have hinner : ∀ o, aliasFalsy o → pyOr o (lookupVal cfg "product_container")
          = some v := by
        intro o ho
        cases hoc : o with
        | none => simpa [pyOr] using hv
        | some w =>
          have hw := ho w hoc
          simp [pyOr, hw, hv]
      cases hpc : lookupVal cfg "productContainer" with
      | none =>
        simp only [pyOr]
        exact hinner _ hf2
      | some w =>
        have hw := hf1 w hpc
        simp only [pyOr, hw]
        simp only [Bool.false_eq_true, if_false]
        exact hinner _ hf2
    exact resolveContainer_of_chain cfg v hchain ht

/-- Witness for C3 amended: with productContainer absent and container
truthy, the resolution is the unwrapped container alias value. -/
theorem C3_amended_first_truthy_alias_witness :
    resolveContainer cfgW = unwrapContainer (SelVal.str ".c") :=
  (C3_amended_first_truthy_alias cfgW).2.1 (SelVal.str ".c")
    (fun _ hv => Option.noConfusion hv) rfl rfl

end HttpScraper
